import Mathlib

/-!
# Verification of the TestRail MCP request-translation layer

This file is a shallow embedding of the operation-to-request
mapping layer of the TestRail MCP server (files `testrail_cases_complex.ts`,
`testrail_sections_complex.ts`, `testrail_projects_complex.ts`,
`testrail_suites_complex.ts` and the split-form tools in
`testrail_cases.ts`, `testrail_sections.ts`, `testrail_projects.ts`).

Modelling conventions:
* JavaScript objects that are serialized with `JSON.stringify` become
  association lists of `(String, JValue)` pairs; fields whose value is
  `undefined` are dropped at serialization time (as `JSON.stringify`
  does), while explicit `null` is kept as `JValue.jNull`.
* `fetch` outcomes are modelled by `HttpOutcome`: either a network-level
  rejection carrying the rejection message, or an HTTP response with a
  status code, status text and raw body text.
* `JSON.parse` is modelled by the executable `jsonParse` below (JSON
  numbers are modelled as integers - no handler behaviour in this
  repository depends on fractional numbers); a `JSON.parse` failure is a
  `JsError.malformedJson`, any other thrown error a `JsError.error`, and
  the `try/catch` at each tool boundary is the `Except JsError String`
  returned by the `...Try` functions, folded into a plain `String` by the
  corresponding `execute` function exactly as the `catch` block does.
* Zod validation appears at two levels: the typed level (records whose
  optional fields are `Option`s, with the `superRefine` passes embedded
  as `...Issues` functions producing one `ZodIssue` per violated
  conditional requirement), and - where a claim depends on it - a raw
  JSON level (`parseSectionOperations`, `parseMoveSectionParams`) that
  models how the base zod field schemas accept or reject raw values
  (in particular `null` versus absent).
-/

/-- JSON values (numbers modelled as integers). -/
inductive JValue where
  | jNull : JValue
  | jBool : Bool → JValue
  | jNum : Int → JValue
  | jStr : String → JValue
  | jArr : List JValue → JValue
  | jObj : List (String × JValue) → JValue

/-- The double-quote character. -/
def quoteChar : Char := Char.ofNat 34

/-- The backslash character. -/
def backslashChar : Char := Char.ofNat 92

/-- The single-quote character. -/
def singleQuoteChar : Char := Char.ofNat 39

/-- The opening-brace character. -/
def lbraceChar : Char := Char.ofNat 123

/-- The closing-brace character. -/
def rbraceChar : Char := Char.ofNat 125

/-- A single-quote string, used to reproduce quoted text in messages. -/
def sglQuote : String := String.singleton singleQuoteChar

/-- First value bound to a key in an association list, if any. -/
def jlookup (fields : List (String × JValue)) (key : String) : Option JValue :=
  match fields with
  | [] => none
  | (k, v) :: rest => if k = key then some v else jlookup rest key

/-- Remove a key from a serialized object, as the JavaScript `delete`
operator does (keeps the order of the remaining fields). -/
def eraseKey (fields : List (String × JValue)) (key : String) :
    List (String × JValue) :=
  match fields with
  | [] => []
  | (k, v) :: rest =>
      if k = key then eraseKey rest key else (k, v) :: eraseKey rest key

/-- Serialize a JavaScript object literal: fields valued `undefined`
(`none`) are dropped, as `JSON.stringify` drops them; present values
(including explicit `null`) are kept in declaration order. -/
def buildObj (fields : List (String × Option JValue)) :
    List (String × JValue) :=
  fields.filterMap (fun kv => kv.2.map (fun v => (kv.1, v)))

/-- Whitespace recognised by the JSON grammar. -/
def isJsonWs (c : Char) : Bool :=
  c = ' ' || c = '\n' || c = '\t' || c = '\r'

/-- Skip JSON whitespace. -/
def skipWs : List Char → List Char
  | [] => []
  | c :: rest => if isJsonWs c then skipWs rest else c :: rest

/-- Parse the tail of a JSON string literal (the opening quote has been
consumed); supports the simple escapes. Returns the decoded string and
the remaining input. -/
def pStringChars : List Char → Option (String × List Char)
  | [] => none
  | c :: rest =>
      if c = quoteChar then some ("", rest)
      else if c = backslashChar then
        match rest with
        | [] => none
        | e :: rest2 =>
            let dec : Option Char :=
              if e = quoteChar then some quoteChar
              else if e = backslashChar then some backslashChar
              else if e = '/' then some '/'
              else if e = 'n' then some '\n'
              else if e = 't' then some '\t'
              else if e = 'r' then some '\r'
              else if e = 'b' then some (Char.ofNat 8)
              else if e = 'f' then some (Char.ofNat 12)
              else none
            match dec with
            | none => none
            | some d =>
                match pStringChars rest2 with
                | none => none
                | some (s, r) => some (String.singleton d ++ s, r)
      else
        match pStringChars rest with
        | none => none
        | some (s, r) => some (String.singleton c ++ s, r)

/-- Parse a run of decimal digits into a natural number. -/
def pDigits : Nat → List Char → Option (Nat × List Char)
  | acc, c :: rest =>
      if c.isDigit then pDigits (acc * 10 + (c.toNat - 48)) rest
      else some (acc, c :: rest)
  | _, [] => none

/-- Parse an integer JSON number (optional leading minus). -/
def pNumber : List Char → Option (Int × List Char)
  | [] => none
  | c :: rest =>
      if c = '-' then
        match rest with
        | d :: rest2 =>
            if d.isDigit then
              match pDigits 0 (d :: rest2) with
              | some (n, r) => some (-(n : Int), r)
              | none => none
            else none
        | [] => none
      else if c.isDigit then
        match pDigits 0 (c :: rest) with
        | some (n, r) => some ((n : Int), r)
        | none => none
      else none

mutual

/-- Fuel-indexed JSON value parser (model of `JSON.parse`). -/
def pVal : Nat → List Char → Option (JValue × List Char)
  | 0, _ => none
  | Nat.succ fuel, cs =>
      match skipWs cs with
      | [] => none
      | c :: rest =>
          if c = quoteChar then
            match pStringChars rest with
            | some (s, r) => some (JValue.jStr s, r)
            | none => none
          else if c = '[' then
            match skipWs rest with
            | c2 :: r2 =>
                if c2 = ']' then some (JValue.jArr [], r2)
                else
                  match pElems fuel (c2 :: r2) with
                  | some (vs, r) => some (JValue.jArr vs, r)
                  | none => none
            | [] => none
          else if c = lbraceChar then
            match skipWs rest with
            | c2 :: r2 =>
                if c2 = rbraceChar then some (JValue.jObj [], r2)
                else
                  match pMembers fuel (c2 :: r2) with
                  | some (fs, r) => some (JValue.jObj fs, r)
                  | none => none
            | [] => none
          else
            match c :: rest with
            | 'n' :: 'u' :: 'l' :: 'l' :: r => some (JValue.jNull, r)
            | 't' :: 'r' :: 'u' :: 'e' :: r => some (JValue.jBool true, r)
            | 'f' :: 'a' :: 'l' :: 's' :: 'e' :: r =>
                some (JValue.jBool false, r)
            | cs2 =>
                match pNumber cs2 with
                | some (n, r) => some (JValue.jNum n, r)
                | none => none

/-- Parse one or more comma-separated array elements. -/
def pElems : Nat → List Char → Option (List JValue × List Char)
  | 0, _ => none
  | Nat.succ fuel, cs =>
      match pVal fuel cs with
      | none => none
      | some (v, r) =>
          match skipWs r with
          | c :: r2 =>
              if c = ',' then
                match pElems fuel r2 with
                | some (vs, r3) => some (v :: vs, r3)
                | none => none
              else if c = ']' then some ([v], r2)
              else none
          | [] => none

/-- Parse one or more comma-separated object members. -/
def pMembers : Nat → List Char →
    Option (List (String × JValue) × List Char)
  | 0, _ => none
  | Nat.succ fuel, cs =>
      match skipWs cs with
      | c :: rest =>
          if c = quoteChar then
            match pStringChars rest with
            | none => none
            | some (k, r) =>
                match skipWs r with
                | c2 :: r2 =>
                    if c2 = ':' then
                      match pVal fuel r2 with
                      | none => none
                      | some (v, r3) =>
                          match skipWs r3 with
                          | c3 :: r4 =>
                              if c3 = ',' then
                                match pMembers fuel r4 with
                                | some (fs, r5) => some ((k, v) :: fs, r5)
                                | none => none
                              else if c3 = rbraceChar then
                                some ([(k, v)], r4)
                              else none
                          | [] => none
                    else none
                | [] => none
          else none
      | [] => none

end

/-- Model of `JSON.parse`: `none` when `JSON.parse` would throw a
`SyntaxError` (in particular on the empty string). -/
def jsonParse (s : String) : Option JValue :=
  match pVal (2 * s.length + 2) s.data with
  | some (v, rest) => if (skipWs rest).isEmpty then some v else none
  | none => none

/-- Escape a string for inclusion in JSON output. -/
def jsonQuote (s : String) : String :=
  let esc : Char → String := fun c =>
    if c = quoteChar then String.singleton backslashChar ++ String.singleton quoteChar
    else if c = backslashChar then
      String.singleton backslashChar ++ String.singleton backslashChar
    else if c = '\n' then String.singleton backslashChar ++ "n"
    else if c = '\t' then String.singleton backslashChar ++ "t"
    else if c = '\r' then String.singleton backslashChar ++ "r"
    else String.singleton c
  String.singleton quoteChar ++ String.join (s.data.map esc) ++
    String.singleton quoteChar

mutual

/-- Pretty-print a JSON value with two-space indentation, as
`JSON.stringify(value, null, 2)` does; `ind` is the current indent. -/
def ppVal (ind : String) : JValue → String
  | JValue.jNull => "null"
  | JValue.jBool b => if b then "true" else "false"
  | JValue.jNum n => toString n
  | JValue.jStr s => jsonQuote s
  | JValue.jArr [] => "[]"
  | JValue.jArr (v :: vs) =>
      "[\n" ++ ppItems (ind ++ "  ") (v :: vs) ++ "\n" ++ ind ++ "]"
  | JValue.jObj [] => "\x7b\x7d"
  | JValue.jObj (f :: fs) =>
      "\x7b\n" ++ ppFields (ind ++ "  ") (f :: fs) ++ "\n" ++ ind ++ "\x7d"

/-- Pretty-print array items, one per line. -/
def ppItems (ind : String) : List JValue → String
  | [] => ""
  | [v] => ind ++ ppVal ind v
  | v :: v2 :: vs => ind ++ ppVal ind v ++ ",\n" ++ ppItems ind (v2 :: vs)

/-- Pretty-print object fields, one per line. -/
def ppFields (ind : String) : List (String × JValue) → String
  | [] => ""
  | [(k, v)] => ind ++ jsonQuote k ++ ": " ++ ppVal ind v
  | (k, v) :: f2 :: fs =>
      ind ++ jsonQuote k ++ ": " ++ ppVal ind v ++ ",\n" ++
        ppFields ind (f2 :: fs)

end

/-- Model of `JSON.stringify(value, null, 2)`. -/
def jsonStringifyPretty (v : JValue) : String := ppVal "" v

/-! ## Percent-encoders and query strings -/

/-- Uppercase hexadecimal digit. -/
def hexDigit (n : Nat) : Char :=
  if n < 10 then Char.ofNat (48 + n) else Char.ofNat (55 + n)

/-- Percent-encode one byte as `%HH`. -/
def percentByte (b : Nat) : String :=
  "%" ++ String.singleton (hexDigit (b / 16)) ++
    String.singleton (hexDigit (b % 16))

/-- UTF-8 bytes of a character. -/
def charUtf8Bytes (c : Char) : List Nat :=
  (String.toUTF8 (String.singleton c)).toList.map (fun b => b.toNat)

/-- Characters left unescaped by `encodeURIComponent`. -/
def uriUnreserved (c : Char) : Bool :=
  c.isAlpha || c.isDigit || c = '-' || c = '_' || c = '.' || c = '!' ||
    c = '~' || c = '*' || c = singleQuoteChar || c = '(' || c = ')'

/-- Model of the JavaScript `encodeURIComponent` function. -/
def encodeURIComponent (s : String) : String :=
  String.join (s.data.map (fun c =>
    if uriUnreserved c then String.singleton c
    else String.join ((charUtf8Bytes c).map percentByte)))

/-- Characters left unescaped by the `application/x-www-form-urlencoded`
serializer used by `URLSearchParams.toString()`. -/
def formUnreserved (c : Char) : Bool :=
  c.isAlpha || c.isDigit || c = '*' || c = '-' || c = '.' || c = '_'

/-- Percent-encode one string as `URLSearchParams.toString()` does
(space becomes `+`). -/
def formEncode (s : String) : String :=
  String.join (s.data.map (fun c =>
    if formUnreserved c then String.singleton c
    else if c = ' ' then "+"
    else String.join ((charUtf8Bytes c).map percentByte)))

/-- Model of `URLSearchParams.toString()` applied to an append-ordered
list of key/value pairs. -/
def renderQuery (ps : List (String × String)) : String :=
  String.intercalate "&" (ps.map (fun kv => formEncode kv.1 ++ "=" ++ formEncode kv.2))

/-! ## HTTP transport model -/

/-- Outcome of a `fetch` call: a network-level rejection (carrying the
rejection message) or an HTTP response with status code, status text
and raw body text. -/
inductive HttpOutcome where
  | networkError : String → HttpOutcome
  | response : Nat → String → String → HttpOutcome

/-- A thrown JavaScript error, distinguishing `SyntaxError` (thrown by
`JSON.parse` / `response.json()` on a malformed body) from every other
`Error` (thrown `new Error(...)`, or a network `TypeError`). -/
inductive JsError where
  | error : String → JsError
  | malformedJson : String → JsError
deriving DecidableEq

/-- The `message` property of the error. -/
def JsError.message : JsError → String
  | JsError.error m => m
  | JsError.malformedJson m => m

/-- `Response.ok`: status in the inclusive range 200-299. -/
def statusOk (s : Nat) : Bool := 200 ≤ s && s ≤ 299

/-- Character-list prefix test. -/
def listStartsWith : List Char → List Char → Bool
  | [], _ => true
  | _ :: _, [] => false
  | a :: as, b :: bs => a == b && listStartsWith as bs

/-- Model of JavaScript `String.prototype.startsWith` (kept executable
down to the kernel, unlike `String.startsWith`). -/
def jsStartsWith (s p : String) : Bool := listStartsWith p.data s.data

/-- The message of the error thrown on a non-2xx response; identical in
every tool of the repository. -/
def apiErrorMessage (status : Nat) (statusText body : String) : String :=
  "TestRail API Error: " ++ toString status ++ " " ++ statusText ++ " - " ++ body

/-- Abstract model of the platform `SyntaxError` message produced when
`JSON.parse` rejects a body (the exact V8 wording is irrelevant to every
claim; only that it is some message derived from the body). -/
def jsonSyntaxErrorMessage (body : String) : String :=
  "Unexpected token in JSON: " ++ body

/-- A request as assembled by a request builder, before `fetch`; the
body is kept in serialized-object form (`JSON.stringify` of this field
list is what goes on the wire). -/
structure Request where
  method : String
  url : String
  body : Option (List (String × JValue))

/-- `${x}` interpolation of a possibly-undefined number. -/
def jsNum : Option Nat → String
  | none => "undefined"
  | some n => toString n

/-! ## JavaScript truthiness on optional fields -/

/-- Truthiness of an optional number (`!x` is true for `undefined` and `0`). -/
def truthyNat : Option Nat → Bool
  | none => false
  | some n => n != 0

/-- Truthiness of an optional string (`!x` is true for `undefined` and `""`). -/
def truthyStr : Option String → Bool
  | none => false
  | some s => s != ""

/-- Truthiness of an optional boolean. -/
def truthyBool : Option Bool → Bool
  | none => false
  | some b => b

/-- Truthiness of an optional array (arrays are always truthy). -/
def truthyList : Option (List Nat) → Bool
  | none => false
  | some _ => true

/-- One issue added by a `superRefine` pass via `ctx.addIssue`. -/
structure ZodIssue where
  message : String
  path : List String
deriving DecidableEq

/-! ## Sections, combined variant (`testrail_sections_complex.ts`) -/

/-- The `operation` enum of the combined sections tool. -/
inductive SectionOp where
  | get_section | get_sections | add_section | update_section
  | delete_section | move_section
deriving DecidableEq

/-- String form of the sections operation. -/
def SectionOp.str : SectionOp → String
  | SectionOp.get_section => "get_section"
  | SectionOp.get_sections => "get_sections"
  | SectionOp.add_section => "add_section"
  | SectionOp.update_section => "update_section"
  | SectionOp.delete_section => "delete_section"
  | SectionOp.move_section => "move_section"

/-- The parsed value of the `SectionOperations` zod schema: every field
except the discriminant is optional. -/
structure SectionOperations where
  operation : SectionOp
  section_id : Option Nat := none
  project_id : Option Nat := none
  suite_id : Option Nat := none
  parent_id : Option Nat := none
  after_id : Option Nat := none
  name : Option String := none
  description : Option String := none
  soft : Option Bool := none
deriving DecidableEq

/-- The `superRefine` pass of `SectionOperations`: conditional required
fields per operation, one `ctx.addIssue` per missing field (the `!val.x`
checks are JavaScript truthiness). -/
def sectionIssues (val : SectionOperations) : List ZodIssue :=
  match val.operation with
  | SectionOp.get_section | SectionOp.update_section
  | SectionOp.delete_section | SectionOp.move_section =>
      if !truthyNat val.section_id then
        [⟨"section_id is required", ["section_id"]⟩] else []
  | SectionOp.get_sections =>
      if !truthyNat val.project_id then
        [⟨"project_id is required", ["project_id"]⟩] else []
  | SectionOp.add_section =>
      (if !truthyNat val.project_id then
        [⟨"project_id is required", ["project_id"]⟩] else []) ++
      (if !truthyStr val.name then
        [⟨"name is required", ["name"]⟩] else [])

/-- The `{...args}` spread of a validated sections input, in schema
field order, as it would be serialized (absent fields dropped). -/
def sectionFields (args : SectionOperations) : List (String × JValue) :=
  buildObj [
    ("operation", some (JValue.jStr args.operation.str)),
    ("section_id", args.section_id.map (fun n => JValue.jNum n)),
    ("project_id", args.project_id.map (fun n => JValue.jNum n)),
    ("suite_id", args.suite_id.map (fun n => JValue.jNum n)),
    ("parent_id", args.parent_id.map (fun n => JValue.jNum n)),
    ("after_id", args.after_id.map (fun n => JValue.jNum n)),
    ("name", args.name.map JValue.jStr),
    ("description", args.description.map JValue.jStr),
    ("soft", args.soft.map JValue.jBool)]

/-- The request-building `switch` of `manage_testrail_sections`
(`base` is `` `${env.TESTRAIL_URL}/index.php?/api/v2` ``). -/
def buildSectionRequest (base : String) (args : SectionOperations) : Request :=
  match args.operation with
  | SectionOp.get_section =>
      { method := "GET",
        url := base ++ "/get_section/" ++ jsNum args.section_id,
        body := none }
  | SectionOp.get_sections =>
      let params : List (String × String) :=
        if truthyNat args.suite_id then [("suite_id", jsNum args.suite_id)] else []
      { method := "GET",
        url := base ++ "/get_sections/" ++ jsNum args.project_id ++ "&" ++
          renderQuery params,
        body := none }
  | SectionOp.add_section =>
      { method := "POST",
        url := base ++ "/add_section/" ++ jsNum args.project_id,
        body := some (eraseKey (eraseKey (sectionFields args) "operation")
          "project_id") }
  | SectionOp.update_section =>
      { method := "POST",
        url := base ++ "/update_section/" ++ jsNum args.section_id,
        body := some (buildObj [
          ("name", args.name.map JValue.jStr),
          ("description", args.description.map JValue.jStr)]) }
  | SectionOp.delete_section =>
      { method := "POST",
        url := base ++ "/delete_section/" ++ jsNum args.section_id,
        body := some [("soft", JValue.jNum (if truthyBool args.soft then 1 else 0))] }
  | SectionOp.move_section =>
      { method := "POST",
        url := base ++ "/move_section/" ++ jsNum args.section_id,
        body := some (buildObj [
          ("after_id", args.after_id.map (fun n => JValue.jNum n)),
          ("parent_id", args.parent_id.map (fun n => JValue.jNum n))]) }

/-- The `try` block of `manage_testrail_sections`: throw on non-2xx,
a fixed message on 204 or any `delete*` operation, otherwise
`response.json()` (throws `SyntaxError` on a malformed body) followed by
`JSON.stringify(data, null, 2)`. -/
def sectionsTryBlock (op : String) (o : HttpOutcome) : Except JsError String :=
  match o with
  | HttpOutcome.networkError m => Except.error (JsError.error m)
  | HttpOutcome.response status statusText body =>
      if !statusOk status then
        Except.error (JsError.error (apiErrorMessage status statusText body))
      else if status == 204 || jsStartsWith op "delete" then
        Except.ok ("Operation " ++ op ++ " successful.")
      else
        match jsonParse body with
        | some v => Except.ok (jsonStringifyPretty v)
        | none => Except.error (JsError.malformedJson (jsonSyntaxErrorMessage body))

/-- The `execute` handler of the `manage_testrail_sections` tool: the
`try` block with its boundary `catch` folded into a plain string. -/
def manage_testrail_sections (args : SectionOperations) (o : HttpOutcome) : String :=
  match sectionsTryBlock args.operation.str o with
  | Except.ok s => s
  | Except.error e =>
      "Failed to perform operation " ++ args.operation.str ++ ". Error: " ++
        e.message

/-! ## Cases, combined variant (`testrail_cases_complex.ts`) -/

/-- The `operation` enum of the combined cases tool. -/
inductive CaseOp where
  | get_case | get_cases | get_history | add_case | update_case
  | update_cases | copy_cases | move_cases | delete_case | delete_cases
deriving DecidableEq

/-- String form of the cases operation. -/
def CaseOp.str : CaseOp → String
  | CaseOp.get_case => "get_case"
  | CaseOp.get_cases => "get_cases"
  | CaseOp.get_history => "get_history"
  | CaseOp.add_case => "add_case"
  | CaseOp.update_case => "update_case"
  | CaseOp.update_cases => "update_cases"
  | CaseOp.copy_cases => "copy_cases"
  | CaseOp.move_cases => "move_cases"
  | CaseOp.delete_case => "delete_case"
  | CaseOp.delete_cases => "delete_cases"

/-- One entry of `custom_steps`. -/
structure CaseStep where
  content : String
  expected : String
deriving DecidableEq

/-- The parsed value of the `CaseOperations` zod schema. -/
structure CaseOperations where
  operation : CaseOp
  case_id : Option Nat := none
  case_ids : Option (List Nat) := none
  project_id : Option Nat := none
  suite_id : Option Nat := none
  section_id : Option Nat := none
  milestone_id : Option Nat := none
  priority_id : Option Nat := none
  template_id : Option Nat := none
  type_id : Option Nat := none
  title : Option String := none
  estimate : Option String := none
  refs : Option String := none
  filter : Option String := none
  custom_preconds : Option String := none
  custom_expected : Option String := none
  custom_steps : Option (List CaseStep) := none
  limit : Option Nat := none
  offset : Option Nat := none
  soft : Option Bool := none
deriving DecidableEq

/-- The `superRefine` pass of `CaseOperations` (the `!val.x` checks are
JavaScript truthiness; issues are added in source order). -/
def caseIssues (val : CaseOperations) : List ZodIssue :=
  match val.operation with
  | CaseOp.get_case | CaseOp.get_history | CaseOp.delete_case
  | CaseOp.update_case =>
      if !truthyNat val.case_id then
        [⟨"case_id is required", ["case_id"]⟩] else []
  | CaseOp.get_cases =>
      if !truthyNat val.project_id then
        [⟨"project_id is required", ["project_id"]⟩] else []
  | CaseOp.add_case =>
      (if !truthyNat val.section_id then
        [⟨"section_id is required", ["section_id"]⟩] else []) ++
      (if !truthyStr val.title then
        [⟨"title is required", ["title"]⟩] else [])
  | CaseOp.update_cases | CaseOp.delete_cases =>
      (if !truthyNat val.suite_id then
        [⟨"suite_id is required", ["suite_id"]⟩] else []) ++
      (if !truthyList val.case_ids then
        [⟨"case_ids are required", ["case_ids"]⟩] else [])
  | CaseOp.copy_cases =>
      (if !truthyNat val.section_id then
        [⟨"section_id is required", ["section_id"]⟩] else []) ++
      (if !truthyList val.case_ids then
        [⟨"case_ids are required", ["case_ids"]⟩] else [])
  | CaseOp.move_cases =>
      (if !truthyNat val.section_id then
        [⟨"section_id is required", ["section_id"]⟩] else []) ++
      (if !truthyNat val.suite_id then
        [⟨"suite_id is required", ["suite_id"]⟩] else []) ++
      (if !truthyList val.case_ids then
        [⟨"case_ids are required", ["case_ids"]⟩] else [])

/-- A list of case ids as a JSON array. -/
def natListJ (ids : List Nat) : JValue :=
  JValue.jArr (ids.map (fun n => JValue.jNum n))

/-- A `custom_steps` list as a JSON array of objects. -/
def stepsJ (steps : List CaseStep) : JValue :=
  JValue.jArr (steps.map (fun st =>
    JValue.jObj [("content", JValue.jStr st.content),
                 ("expected", JValue.jStr st.expected)]))

/-- The `{...args}` spread of a validated cases input, in schema field
order, as it would be serialized (absent fields dropped). -/
def caseFields (args : CaseOperations) : List (String × JValue) :=
  buildObj [
    ("operation", some (JValue.jStr args.operation.str)),
    ("case_id", args.case_id.map (fun n => JValue.jNum n)),
    ("case_ids", args.case_ids.map natListJ),
    ("project_id", args.project_id.map (fun n => JValue.jNum n)),
    ("suite_id", args.suite_id.map (fun n => JValue.jNum n)),
    ("section_id", args.section_id.map (fun n => JValue.jNum n)),
    ("milestone_id", args.milestone_id.map (fun n => JValue.jNum n)),
    ("priority_id", args.priority_id.map (fun n => JValue.jNum n)),
    ("template_id", args.template_id.map (fun n => JValue.jNum n)),
    ("type_id", args.type_id.map (fun n => JValue.jNum n)),
    ("title", args.title.map JValue.jStr),
    ("estimate", args.estimate.map JValue.jStr),
    ("refs", args.refs.map JValue.jStr),
    ("filter", args.filter.map JValue.jStr),
    ("custom_preconds", args.custom_preconds.map JValue.jStr),
    ("custom_expected", args.custom_expected.map JValue.jStr),
    ("custom_steps", args.custom_steps.map stepsJ),
    ("limit", args.limit.map (fun n => JValue.jNum n)),
    ("offset", args.offset.map (fun n => JValue.jNum n)),
    ("soft", args.soft.map JValue.jBool)]

/-- The `get_cases` query assembly: `forEach` over the five filter
names, appending each defined one to a `URLSearchParams`. -/
def caseQueryParams (args : CaseOperations) : List (String × String) :=
  (match args.suite_id with
   | some v => [("suite_id", toString v)] | none => []) ++
  (match args.priority_id with
   | some v => [("priority_id", toString v)] | none => []) ++
  (match args.limit with
   | some v => [("limit", toString v)] | none => []) ++
  (match args.offset with
   | some v => [("offset", toString v)] | none => []) ++
  (match args.filter with
   | some v => [("filter", v)] | none => [])

/-- The request-building `switch` of `manage_testrail_cases`. -/
def buildCaseRequest (base : String) (args : CaseOperations) : Request :=
  match args.operation with
  | CaseOp.get_case =>
      { method := "GET",
        url := base ++ "/get_case/" ++ jsNum args.case_id,
        body := none }
  | CaseOp.get_cases =>
      { method := "GET",
        url := base ++ "/get_cases/" ++ jsNum args.project_id ++ "&" ++
          renderQuery (caseQueryParams args),
        body := none }
  | CaseOp.get_history =>
      { method := "GET",
        url := base ++ "/get_history_for_case/" ++ jsNum args.case_id,
        body := none }
  | CaseOp.add_case =>
      { method := "POST",
        url := base ++ "/add_case/" ++ jsNum args.section_id,
        body := some (eraseKey (eraseKey (caseFields args) "operation")
          "section_id") }
  | CaseOp.update_case =>
      { method := "POST",
        url := base ++ "/update_case/" ++ jsNum args.case_id,
        body := some (eraseKey (eraseKey (caseFields args) "operation")
          "case_id") }
  | CaseOp.update_cases =>
      { method := "POST",
        url := base ++ "/update_cases/" ++ jsNum args.suite_id,
        body := some (eraseKey (eraseKey (caseFields args) "operation")
          "suite_id") }
  | CaseOp.copy_cases =>
      { method := "POST",
        url := base ++ "/copy_cases_to_section/" ++ jsNum args.section_id,
        body := some (buildObj [("case_ids", args.case_ids.map natListJ)]) }
  | CaseOp.move_cases =>
      { method := "POST",
        url := base ++ "/move_cases_to_section/" ++ jsNum args.section_id,
        body := some (buildObj [
          ("suite_id", args.suite_id.map (fun n => JValue.jNum n)),
          ("case_ids", args.case_ids.map natListJ)]) }
  | CaseOp.delete_case =>
      { method := "POST",
        url := base ++ "/delete_case/" ++ jsNum args.case_id,
        body := some [("soft", JValue.jNum (if truthyBool args.soft then 1 else 0))] }
  | CaseOp.delete_cases =>
      { method := "POST",
        url := base ++ "/delete_cases/" ++ jsNum args.suite_id,
        body := some (buildObj [
          ("case_ids", args.case_ids.map natListJ),
          ("soft", some (JValue.jNum (if truthyBool args.soft then 1 else 0)))]) }

/-- The `try` block of `manage_testrail_cases`; unlike the sections
tool, a body that fails to parse as JSON is returned as raw text (the
inner `try { JSON.parse } catch { return responseText }`). -/
def casesTryBlock (op : String) (o : HttpOutcome) : Except JsError String :=
  match o with
  | HttpOutcome.networkError m => Except.error (JsError.error m)
  | HttpOutcome.response status statusText body =>
      if !statusOk status then
        Except.error (JsError.error (apiErrorMessage status statusText body))
      else if status == 204 || jsStartsWith op "delete" then
        Except.ok ("Operation " ++ op ++ " successful.")
      else
        match jsonParse body with
        | some v => Except.ok (jsonStringifyPretty v)
        | none => Except.ok body

/-- The `execute` handler of the `manage_testrail_cases` tool. -/
def manage_testrail_cases (args : CaseOperations) (o : HttpOutcome) : String :=
  match casesTryBlock args.operation.str o with
  | Except.ok s => s
  | Except.error e =>
      "Failed to perform operation " ++ args.operation.str ++ ". Error: " ++
        e.message

/-! ## Projects, combined variant (`testrail_projects_complex.ts`) -/

/-- The `operation` enum of the combined projects tool. -/
inductive ProjectOp where
  | get_project | get_projects | add_project | update_project
  | delete_project
deriving DecidableEq

/-- String form of the projects operation. -/
def ProjectOp.str : ProjectOp → String
  | ProjectOp.get_project => "get_project"
  | ProjectOp.get_projects => "get_projects"
  | ProjectOp.add_project => "add_project"
  | ProjectOp.update_project => "update_project"
  | ProjectOp.delete_project => "delete_project"

/-- The parsed value of the `ProjectOperations` zod schema. -/
structure ProjectOperations where
  operation : ProjectOp
  project_id : Option Nat := none
  name : Option String := none
  announcement : Option String := none
  show_announcement : Option Bool := none
  suite_mode : Option Nat := none
  is_completed : Option Bool := none
  limit : Option Nat := none
  offset : Option Nat := none
deriving DecidableEq

/-- The `superRefine` pass of `ProjectOperations`. -/
def projectIssues (val : ProjectOperations) : List ZodIssue :=
  match val.operation with
  | ProjectOp.get_project | ProjectOp.update_project
  | ProjectOp.delete_project =>
      if !truthyNat val.project_id then
        [⟨"project_id is required", ["project_id"]⟩] else []
  | ProjectOp.add_project =>
      if !truthyStr val.name then
        [⟨"name is required", ["name"]⟩] else []
  | ProjectOp.get_projects => []

/-- The `{...args}` spread of a validated projects input. -/
def projectFields (args : ProjectOperations) : List (String × JValue) :=
  buildObj [
    ("operation", some (JValue.jStr args.operation.str)),
    ("project_id", args.project_id.map (fun n => JValue.jNum n)),
    ("name", args.name.map JValue.jStr),
    ("announcement", args.announcement.map JValue.jStr),
    ("show_announcement", args.show_announcement.map JValue.jBool),
    ("suite_mode", args.suite_mode.map (fun n => JValue.jNum n)),
    ("is_completed", args.is_completed.map JValue.jBool),
    ("limit", args.limit.map (fun n => JValue.jNum n)),
    ("offset", args.offset.map (fun n => JValue.jNum n))]

/-- The `get_projects` query assembly of the combined projects tool
(`is_completed` translated to `"1"`/`"0"`, `limit` and `offset`
stringified). -/
def projectQueryParams (args : ProjectOperations) : List (String × String) :=
  (match args.is_completed with
   | some b => [("is_completed", if b then "1" else "0")] | none => []) ++
  (match args.limit with
   | some v => [("limit", toString v)] | none => []) ++
  (match args.offset with
   | some v => [("offset", toString v)] | none => [])

/-- The request-building `switch` of `manage_testrail_projects`. -/
def buildProjectRequest (base : String) (args : ProjectOperations) : Request :=
  match args.operation with
  | ProjectOp.get_project =>
      { method := "GET",
        url := base ++ "/get_project/" ++ jsNum args.project_id,
        body := none }
  | ProjectOp.get_projects =>
      { method := "GET",
        url := base ++ "/get_projects" ++ "&" ++
          renderQuery (projectQueryParams args),
        body := none }
  | ProjectOp.add_project =>
      { method := "POST",
        url := base ++ "/add_project",
        body := some (eraseKey (projectFields args) "operation") }
  | ProjectOp.update_project =>
      { method := "POST",
        url := base ++ "/update_project/" ++ jsNum args.project_id,
        body := some (eraseKey (eraseKey (projectFields args) "operation")
          "project_id") }
  | ProjectOp.delete_project =>
      { method := "POST",
        url := base ++ "/delete_project/" ++ jsNum args.project_id,
        body := none }

/-- The `try` block of `manage_testrail_projects` (same response
normalization as the sections tool: `response.json()` throws on a
malformed body). -/
def projectsTryBlock (op : String) (o : HttpOutcome) : Except JsError String :=
  match o with
  | HttpOutcome.networkError m => Except.error (JsError.error m)
  | HttpOutcome.response status statusText body =>
      if !statusOk status then
        Except.error (JsError.error (apiErrorMessage status statusText body))
      else if status == 204 || jsStartsWith op "delete" then
        Except.ok ("Operation " ++ op ++ " successful.")
      else
        match jsonParse body with
        | some v => Except.ok (jsonStringifyPretty v)
        | none => Except.error (JsError.malformedJson (jsonSyntaxErrorMessage body))

/-- The `execute` handler of the `manage_testrail_projects` tool. -/
def manage_testrail_projects (args : ProjectOperations) (o : HttpOutcome) : String :=
  match projectsTryBlock args.operation.str o with
  | Except.ok s => s
  | Except.error e =>
      "Failed to perform operation " ++ args.operation.str ++ ". Error: " ++
        e.message

/-! ## Suites, combined variant (`testrail_suites_complex.ts`) -/

/-- The `operation` enum of the combined suites tool. -/
inductive SuiteOp where
  | get | list | add | update | delete
deriving DecidableEq

/-- String form of the suites operation. -/
def SuiteOp.str : SuiteOp → String
  | SuiteOp.get => "get"
  | SuiteOp.list => "list"
  | SuiteOp.add => "add"
  | SuiteOp.update => "update"
  | SuiteOp.delete => "delete"

/-- The parsed value of the `SuiteOperations` zod schema (`soft` is a
number in `[0,1]` in this family). -/
structure SuiteOperations where
  operation : SuiteOp
  suite_id : Option Nat := none
  project_id : Option Nat := none
  name : Option String := none
  description : Option String := none
  soft : Option Nat := none
deriving DecidableEq

/-- The `superRefine` pass of `SuiteOperations`; this family checks
`=== undefined` (not truthiness) and interpolates the operation into the
message. -/
def suiteIssues (val : SuiteOperations) : List ZodIssue :=
  match val.operation with
  | SuiteOp.get | SuiteOp.delete | SuiteOp.update =>
      if val.suite_id.isNone then
        [⟨"suite_id is required when operation is " ++ sglQuote ++
            val.operation.str ++ sglQuote, ["suite_id"]⟩] else []
  | SuiteOp.list =>
      if val.project_id.isNone then
        [⟨"project_id is required when operation is " ++ sglQuote ++ "list" ++
            sglQuote, ["project_id"]⟩] else []
  | SuiteOp.add =>
      (if val.project_id.isNone then
        [⟨"project_id is required when operation is " ++ sglQuote ++ "add" ++
            sglQuote, ["project_id"]⟩] else []) ++
      (if val.name.isNone then
        [⟨"name is required when operation is " ++ sglQuote ++ "add" ++
            sglQuote, ["name"]⟩] else [])

/-- The `try` block of `manage_testrail_suites`: no 204 special case,
the delete check compares the operation to the delete literal, and the fixed delete
message interpolates the suite id. -/
def suitesTryBlock (args : SuiteOperations) (o : HttpOutcome) :
    Except JsError String :=
  match o with
  | HttpOutcome.networkError m => Except.error (JsError.error m)
  | HttpOutcome.response status statusText body =>
      if !statusOk status then
        Except.error (JsError.error (apiErrorMessage status statusText body))
      else if args.operation = SuiteOp.delete then
        Except.ok ("Successfully deleted suite " ++ jsNum args.suite_id ++ ".")
      else
        match jsonParse body with
        | some v => Except.ok (jsonStringifyPretty v)
        | none => Except.error (JsError.malformedJson (jsonSyntaxErrorMessage body))

/-- The `execute` handler of the `manage_testrail_suites` tool. -/
def manage_testrail_suites (args : SuiteOperations) (o : HttpOutcome) : String :=
  match suitesTryBlock args o with
  | Except.ok s => s
  | Except.error e =>
      "Failed to perform operation " ++ args.operation.str ++ ". Error: " ++
        e.message

/-! ## Raw-level zod field parsing

For claims that depend on how the base zod field schemas treat raw JSON
values (explicit `null` versus absent field), we model the parse of a
raw JSON object against the relevant schemas. A raw tool input is a
`List (String × JValue)`; an absent field is an absent key. -/

/-- `z.number().int().positive().optional()`: absent is accepted as
`undefined`; a positive integer is accepted; `null` and everything else
is an invalid type / too-small error. -/
def zOptPosInt (raw : List (String × JValue)) (key : String) :
    Except String (Option Nat) :=
  match jlookup raw key with
  | none => Except.ok none
  | some (JValue.jNum n) =>
      if 0 < n then Except.ok (some n.toNat)
      else Except.error (key ++ ": Number must be greater than 0")
  | some JValue.jNull => Except.error (key ++ ": Expected number, received null")
  | some _ => Except.error (key ++ ": Expected number")

/-- `z.number().int().positive().nullable().optional()`: like
`zOptPosInt` but explicit `null` is accepted and kept distinct from an
absent field. -/
def zOptNullablePosInt (raw : List (String × JValue)) (key : String) :
    Except String (Option (Option Nat)) :=
  match jlookup raw key with
  | none => Except.ok none
  | some JValue.jNull => Except.ok (some none)
  | some (JValue.jNum n) =>
      if 0 < n then Except.ok (some (some n.toNat))
      else Except.error (key ++ ": Number must be greater than 0")
  | some _ => Except.error (key ++ ": Expected number")

/-- `z.string().optional()`. -/
def zOptStr (raw : List (String × JValue)) (key : String) :
    Except String (Option String) :=
  match jlookup raw key with
  | none => Except.ok none
  | some (JValue.jStr s) => Except.ok (some s)
  | some _ => Except.error (key ++ ": Expected string")

/-- `z.string().min(1).optional()`. -/
def zOptMinStr (raw : List (String × JValue)) (key : String) :
    Except String (Option String) :=
  match jlookup raw key with
  | none => Except.ok none
  | some (JValue.jStr s) =>
      if s ≠ "" then Except.ok (some s)
      else Except.error (key ++ ": String must contain at least 1 character")
  | some _ => Except.error (key ++ ": Expected string")

/-- `z.boolean().optional()`. -/
def zOptBool (raw : List (String × JValue)) (key : String) :
    Except String (Option Bool) :=
  match jlookup raw key with
  | none => Except.ok none
  | some (JValue.jBool b) => Except.ok (some b)
  | some _ => Except.error (key ++ ": Expected boolean")

/-- The sections `operation` enum parse. -/
def parseSectionOpValue : JValue → Except String SectionOp
  | JValue.jStr s =>
      if s = "get_section" then Except.ok SectionOp.get_section
      else if s = "get_sections" then Except.ok SectionOp.get_sections
      else if s = "add_section" then Except.ok SectionOp.add_section
      else if s = "update_section" then Except.ok SectionOp.update_section
      else if s = "delete_section" then Except.ok SectionOp.delete_section
      else if s = "move_section" then Except.ok SectionOp.move_section
      else Except.error "operation: Invalid enum value"
  | _ => Except.error "operation: Invalid enum value"

/-- The base (pre-`superRefine`) parse of the combined-variant
`SectionOperations` schema on a raw JSON object. Note that `parent_id`
and `after_id` are plain `z.number().int().positive().optional()` in
this schema - they are not `.nullable()`, so an explicit `null` is
rejected. -/
def parseSectionOperations (raw : List (String × JValue)) :
    Except String SectionOperations := do
  let operation ← (match jlookup raw "operation" with
    | some v => parseSectionOpValue v
    | none => Except.error "operation: Required")
  let section_id ← zOptPosInt raw "section_id"
  let project_id ← zOptPosInt raw "project_id"
  let suite_id ← zOptPosInt raw "suite_id"
  let parent_id ← zOptPosInt raw "parent_id"
  let after_id ← zOptPosInt raw "after_id"
  let name ← zOptMinStr raw "name"
  let description ← zOptStr raw "description"
  let soft ← zOptBool raw "soft"
  Except.ok { operation := operation, section_id := section_id,
              project_id := project_id, suite_id := suite_id,
              parent_id := parent_id, after_id := after_id,
              name := name, description := description, soft := soft }

/-! ## Split-form sections tools (`testrail_sections.ts`) -/

/-- The parsed value of the split-form `MoveSectionParams` zod schema:
`parent_id` and `after_id` are `.nullable().optional()`, so each is
either absent (`none`), explicit `null` (`some none`), or a positive
integer (`some (some n)`). -/
structure MoveSectionParams where
  section_id : Nat
  parent_id : Option (Option Nat) := none
  after_id : Option (Option Nat) := none
deriving DecidableEq

/-- The parse of the split-form `MoveSectionParams` schema on a raw
JSON object (`section_id` required positive, the other two nullable and
optional). -/
def parseMoveSectionParams (raw : List (String × JValue)) :
    Except String MoveSectionParams := do
  let section_id ← (match jlookup raw "section_id" with
    | some (JValue.jNum n) =>
        if 0 < n then Except.ok n.toNat
        else Except.error "section_id: Number must be greater than 0"
    | some _ => Except.error "section_id: Expected number"
    | none => Except.error "section_id: Required")
  let parent_id ← zOptNullablePosInt raw "parent_id"
  let after_id ← zOptNullablePosInt raw "after_id"
  Except.ok { section_id := section_id, parent_id := parent_id,
              after_id := after_id }

/-- A nullable id rendered as JSON. -/
def nullableNatJ : Option Nat → JValue
  | none => JValue.jNull
  | some n => JValue.jNum n

/-- The serialized body of the split-form `move_section` tool:
`const { section_id, ...moveData } = args; JSON.stringify(moveData)` -
absent (`undefined`) fields are dropped by `JSON.stringify`, explicit
`null` is kept. -/
def moveSectionBody (args : MoveSectionParams) : List (String × JValue) :=
  buildObj [
    ("parent_id", args.parent_id.map nullableNatJ),
    ("after_id", args.after_id.map nullableNatJ)]

/-- The request built by the split-form `move_section` tool. -/
def buildMoveSectionRequest (base : String) (args : MoveSectionParams) :
    Request :=
  { method := "POST",
    url := base ++ "/move_section/" ++ toString args.section_id,
    body := some (moveSectionBody args) }

/-- The `execute` handler of the split-form `update_section` tool:
non-2xx throws, otherwise `response.json()` (throws on an empty or
malformed body) then `JSON.stringify(data, null, 2)`; the boundary
`catch` interpolates the section id. -/
def update_section_execute (section_id : Nat) (o : HttpOutcome) : String :=
  let attempt : Except JsError String :=
    match o with
    | HttpOutcome.networkError m => Except.error (JsError.error m)
    | HttpOutcome.response status statusText body =>
        if !statusOk status then
          Except.error (JsError.error (apiErrorMessage status statusText body))
        else
          match jsonParse body with
          | some v => Except.ok (jsonStringifyPretty v)
          | none =>
              Except.error (JsError.malformedJson (jsonSyntaxErrorMessage body))
  match attempt with
  | Except.ok s => s
  | Except.error e =>
      "Failed to update section " ++ toString section_id ++ ". Error: " ++
        e.message

/-- The `execute` handler of the split-form `delete_section` tool: on
any 2xx response the fixed message is returned and the body is never
read, whether or not `soft` was set (`soft` only alters the URL). -/
def delete_section_execute (section_id : Nat) (soft : Option Nat)
    (o : HttpOutcome) : String :=
  let attempt : Except JsError String :=
    match o with
    | HttpOutcome.networkError m => Except.error (JsError.error m)
    | HttpOutcome.response status statusText body =>
        if !statusOk status then
          Except.error (JsError.error (apiErrorMessage status statusText body))
        else
          Except.ok ("Successfully deleted section " ++ toString section_id ++ ".")
  match attempt with
  | Except.ok s => s
  | Except.error e =>
      "Failed to delete section " ++ toString section_id ++ ". Error: " ++
        e.message

/-! ## Split-form cases tools (`testrail_cases.ts`) -/

/-- The `execute` handler of the split-form `delete_case` tool. A
non-empty 2xx body is parsed and pretty-printed whatever `soft` is; an
empty body gives the fixed message; a `SyntaxError` from the parse is
intercepted by the `catch` and mapped to a soft/hard-specific benign
message. -/
def delete_case_execute (case_id : Nat) (soft : Option Bool)
    (o : HttpOutcome) : String :=
  let attempt : Except JsError String :=
    match o with
    | HttpOutcome.networkError m => Except.error (JsError.error m)
    | HttpOutcome.response status statusText body =>
        if !statusOk status then
          Except.error (JsError.error (apiErrorMessage status statusText body))
        else if body ≠ "" then
          match jsonParse body with
          | some v => Except.ok (jsonStringifyPretty v)
          | none =>
              Except.error (JsError.malformedJson (jsonSyntaxErrorMessage body))
        else
          Except.ok ("Successfully deleted case " ++ toString case_id ++ ".")
  match attempt with
  | Except.ok s => s
  | Except.error (JsError.malformedJson _) =>
      if truthyBool soft then
        "Soft delete simulation for case " ++ toString case_id ++
          " was successful, but no data was returned."
      else
        "Successfully deleted case " ++ toString case_id ++ "."
  | Except.error e =>
      "Failed to delete case " ++ toString case_id ++ ". Error: " ++
        e.message

/-- The `execute` handler of the split-form `delete_cases` tool: a hard
delete returns the fixed message without looking at the body; a soft
delete returns the parsed preview when the body is non-empty JSON, an
invalid-response message when it is non-empty but unparseable, and a
no-data message when it is empty. -/
def delete_cases_execute (suite_id : Nat) (soft : Option Bool)
    (o : HttpOutcome) : String :=
  match o with
  | HttpOutcome.networkError m =>
      "Failed to delete cases from suite " ++ toString suite_id ++
        ". Error: " ++ m
  | HttpOutcome.response status statusText body =>
      if !statusOk status then
        "Failed to delete cases from suite " ++ toString suite_id ++
          ". Error: " ++ apiErrorMessage status statusText body
      else if !truthyBool soft then
        "Successfully deleted cases from suite " ++ toString suite_id ++ "."
      else if body ≠ "" then
        match jsonParse body with
        | some v => jsonStringifyPretty v
        | none =>
            "Soft delete for cases in suite " ++ toString suite_id ++
              " returned an invalid response: " ++ body
      else
        "Soft delete for cases in suite " ++ toString suite_id ++
          " was successful but returned no data."

/-! ## Split-form projects tool `get_projects` (`testrail_projects.ts`) -/

/-- The parsed value of the split-form `GetProjectsParams` schema
(`is_completed` is a plain integer here, not a boolean). -/
structure GetProjectsParams where
  is_completed : Option Int := none
  limit : Option Nat := none
  offset : Option Nat := none
deriving DecidableEq

/-- One pushed query fragment:
`encodeURIComponent(key)=encodeURIComponent(String(value))`. -/
def qFrag (k v : String) : String :=
  encodeURIComponent k ++ "=" ++ encodeURIComponent v

/-- The defined key/value entries of a split-form `get_projects` call,
in `Object.entries` (schema) order; entries whose value is `undefined`
are skipped. -/
def getProjectsQueryPairs (a : GetProjectsParams) : List (String × String) :=
  (match a.is_completed with
   | some v => [("is_completed", toString v)] | none => []) ++
  (match a.limit with
   | some v => [("limit", toString v)] | none => []) ++
  (match a.offset with
   | some v => [("offset", toString v)] | none => [])

/-- The query fragments pushed by the split-form `get_projects` tool:
one percent-encoded `key=value` fragment per defined parameter. -/
def getProjectsQueryParams (a : GetProjectsParams) : List String :=
  (getProjectsQueryPairs a).map (fun kv => qFrag kv.1 kv.2)

/-- The URL built by the split-form `get_projects` tool: the query
block is appended (after a `&`) only when at least one parameter is
present. -/
def getProjectsUrl (base : String) (a : GetProjectsParams) : String :=
  let qp := getProjectsQueryParams a
  (base ++ "/get_projects") ++
    (if qp.length > 0 then "&" ++ String.intercalate "&" qp else "")

/-! ## Fixtures for the per-operation validation claims

`minimal...Input` supplies exactly the required fields of each operation
(the required-fields table of the spec and of the `superRefine`
switches), with valid sample values; `clear...Field` removes one field
by name. -/

/-- Exactly the required fields of each cases operation. -/
def minimalCaseInput : CaseOp → CaseOperations
  | CaseOp.get_case => { operation := CaseOp.get_case, case_id := some 1 }
  | CaseOp.get_cases => { operation := CaseOp.get_cases, project_id := some 1 }
  | CaseOp.get_history => { operation := CaseOp.get_history, case_id := some 1 }
  | CaseOp.add_case =>
      { operation := CaseOp.add_case, section_id := some 1, title := some "T" }
  | CaseOp.update_case => { operation := CaseOp.update_case, case_id := some 1 }
  | CaseOp.update_cases =>
      { operation := CaseOp.update_cases, suite_id := some 1, case_ids := some [1] }
  | CaseOp.copy_cases =>
      { operation := CaseOp.copy_cases, section_id := some 1, case_ids := some [1] }
  | CaseOp.move_cases =>
      { operation := CaseOp.move_cases, section_id := some 1, suite_id := some 1,
        case_ids := some [1] }
  | CaseOp.delete_case => { operation := CaseOp.delete_case, case_id := some 1 }
  | CaseOp.delete_cases =>
      { operation := CaseOp.delete_cases, suite_id := some 1, case_ids := some [1] }

/-- The required-field names of each cases operation. -/
def caseRequiredFields : CaseOp → List String
  | CaseOp.get_case => ["case_id"]
  | CaseOp.get_cases => ["project_id"]
  | CaseOp.get_history => ["case_id"]
  | CaseOp.add_case => ["section_id", "title"]
  | CaseOp.update_case => ["case_id"]
  | CaseOp.update_cases => ["suite_id", "case_ids"]
  | CaseOp.copy_cases => ["section_id", "case_ids"]
  | CaseOp.move_cases => ["section_id", "suite_id", "case_ids"]
  | CaseOp.delete_case => ["case_id"]
  | CaseOp.delete_cases => ["suite_id", "case_ids"]

/-- Reset one cases field (by name) to absent. -/
def clearCaseField (a : CaseOperations) (f : String) : CaseOperations :=
  if f = "case_id" then { a with case_id := none }
  else if f = "case_ids" then { a with case_ids := none }
  else if f = "project_id" then { a with project_id := none }
  else if f = "suite_id" then { a with suite_id := none }
  else if f = "section_id" then { a with section_id := none }
  else if f = "title" then { a with title := none }
  else a

/-- The issue the cases/sections/projects `superRefine` passes add for a
missing field (`case_ids` uses a plural message). -/
def requiredIssue (f : String) : ZodIssue :=
  if f = "case_ids" then ⟨"case_ids are required", ["case_ids"]⟩
  else ⟨f ++ " is required", [f]⟩

/-- Exactly the required fields of each sections operation. -/
def minimalSectionInput : SectionOp → SectionOperations
  | SectionOp.get_section =>
      { operation := SectionOp.get_section, section_id := some 1 }
  | SectionOp.get_sections =>
      { operation := SectionOp.get_sections, project_id := some 1 }
  | SectionOp.add_section =>
      { operation := SectionOp.add_section, project_id := some 1, name := some "N" }
  | SectionOp.update_section =>
      { operation := SectionOp.update_section, section_id := some 1 }
  | SectionOp.delete_section =>
      { operation := SectionOp.delete_section, section_id := some 1 }
  | SectionOp.move_section =>
      { operation := SectionOp.move_section, section_id := some 1 }

/-- The required-field names of each sections operation. -/
def sectionRequiredFields : SectionOp → List String
  | SectionOp.get_section => ["section_id"]
  | SectionOp.get_sections => ["project_id"]
  | SectionOp.add_section => ["project_id", "name"]
  | SectionOp.update_section => ["section_id"]
  | SectionOp.delete_section => ["section_id"]
  | SectionOp.move_section => ["section_id"]

/-- Reset one sections field (by name) to absent. -/
def clearSectionField (a : SectionOperations) (f : String) : SectionOperations :=
  if f = "section_id" then { a with section_id := none }
  else if f = "project_id" then { a with project_id := none }
  else if f = "name" then { a with name := none }
  else a

/-- Exactly the required fields of each projects operation. -/
def minimalProjectInput : ProjectOp → ProjectOperations
  | ProjectOp.get_project =>
      { operation := ProjectOp.get_project, project_id := some 1 }
  | ProjectOp.get_projects => { operation := ProjectOp.get_projects }
  | ProjectOp.add_project =>
      { operation := ProjectOp.add_project, name := some "N" }
  | ProjectOp.update_project =>
      { operation := ProjectOp.update_project, project_id := some 1 }
  | ProjectOp.delete_project =>
      { operation := ProjectOp.delete_project, project_id := some 1 }

/-- The required-field names of each projects operation. -/
def projectRequiredFields : ProjectOp → List String
  | ProjectOp.get_project => ["project_id"]
  | ProjectOp.get_projects => []
  | ProjectOp.add_project => ["name"]
  | ProjectOp.update_project => ["project_id"]
  | ProjectOp.delete_project => ["project_id"]

/-- Reset one projects field (by name) to absent. -/
def clearProjectField (a : ProjectOperations) (f : String) : ProjectOperations :=
  if f = "project_id" then { a with project_id := none }
  else if f = "name" then { a with name := none }
  else a

/-- Exactly the required fields of each suites operation. -/
def minimalSuiteInput : SuiteOp → SuiteOperations
  | SuiteOp.get => { operation := SuiteOp.get, suite_id := some 1 }
  | SuiteOp.list => { operation := SuiteOp.list, project_id := some 1 }
  | SuiteOp.add =>
      { operation := SuiteOp.add, project_id := some 1, name := some "N" }
  | SuiteOp.update => { operation := SuiteOp.update, suite_id := some 1 }
  | SuiteOp.delete => { operation := SuiteOp.delete, suite_id := some 1 }

/-- The required-field names of each suites operation. -/
def suiteRequiredFields : SuiteOp → List String
  | SuiteOp.get => ["suite_id"]
  | SuiteOp.list => ["project_id"]
  | SuiteOp.add => ["project_id", "name"]
  | SuiteOp.update => ["suite_id"]
  | SuiteOp.delete => ["suite_id"]

/-- Reset one suites field (by name) to absent. -/
def clearSuiteField (a : SuiteOperations) (f : String) : SuiteOperations :=
  if f = "suite_id" then { a with suite_id := none }
  else if f = "project_id" then { a with project_id := none }
  else if f = "name" then { a with name := none }
  else a

/-- The issue the suites `superRefine` adds for a missing field (its
messages interpolate the operation). -/
def suiteRequiredIssue (op f : String) : ZodIssue :=
  ⟨f ++ " is required when operation is " ++ sglQuote ++ op ++ sglQuote, [f]⟩

/-! ## Helper lemmas -/

/-- `delete` of a key is `filter` on the key name. -/
theorem eraseKey_eq_filter (l : List (String × JValue)) (k : String) :
    eraseKey l k = l.filter (fun kv => kv.1 != k) := by
  induction l with
  | nil => rfl
  | cons hd tl ih =>
      obtain ⟨k0, v0⟩ := hd
      by_cases h : k0 = k <;> simp [eraseKey, h, ih]

/-- Two `delete`s of distinct keys are one `filter` on both names. -/
theorem eraseKey_eraseKey_eq_filter (l : List (String × JValue)) (k1 k2 : String) :
    eraseKey (eraseKey l k1) k2 =
      l.filter (fun kv => kv.1 != k1 && kv.1 != k2) := by
  induction l with
  | nil => rfl
  | cons hd tl ih =>
      obtain ⟨k0, v0⟩ := hd
      by_cases h1 : k0 = k1
      · simp [eraseKey, h1, ih]
      · by_cases h2 : k0 = k2
        · subst h2
          simp [eraseKey, h1, ih]
        · simp [eraseKey, h1, h2, ih]

/-! ## Claim theorems -/

/-- C6: for every operation of every combined-variant resource family,
a non-2xx HTTP response yields an error-string result equal to the
boundary format carrying the numeric status code, the status text and
the remote response body verbatim (`apiErrorMessage` concatenates
exactly those three). -/
theorem non2xx_yields_error_string_with_status_and_body
    (status : Nat) (st b : String) (h : statusOk status = false) :
    (∀ a : SectionOperations,
      manage_testrail_sections a (HttpOutcome.response status st b) =
        "Failed to perform operation " ++ a.operation.str ++ ". Error: " ++
          apiErrorMessage status st b) ∧
    (∀ a : CaseOperations,
      manage_testrail_cases a (HttpOutcome.response status st b) =
        "Failed to perform operation " ++ a.operation.str ++ ". Error: " ++
          apiErrorMessage status st b) ∧
    (∀ a : ProjectOperations,
      manage_testrail_projects a (HttpOutcome.response status st b) =
        "Failed to perform operation " ++ a.operation.str ++ ". Error: " ++
          apiErrorMessage status st b) ∧
    (∀ a : SuiteOperations,
      manage_testrail_suites a (HttpOutcome.response status st b) =
        "Failed to perform operation " ++ a.operation.str ++ ". Error: " ++
          apiErrorMessage status st b) := by
  refine ⟨fun a => ?_, fun a => ?_, fun a => ?_, fun a => ?_⟩ <;>
    simp [manage_testrail_sections, sectionsTryBlock, manage_testrail_cases,
      casesTryBlock, manage_testrail_projects, projectsTryBlock,
      manage_testrail_suites, suitesTryBlock, h, JsError.message]

/-- Witness for C6 at a concrete 404. -/
theorem non2xx_yields_error_string_witness :
    statusOk 404 = false ∧
    manage_testrail_sections
        { operation := SectionOp.get_section, section_id := some 5 }
        (HttpOutcome.response 404 "Not Found" "no such section") =
      "Failed to perform operation " ++ SectionOp.get_section.str ++
        ". Error: " ++ apiErrorMessage 404 "Not Found" "no such section" :=
  ⟨by decide,
   (non2xx_yields_error_string_with_status_and_body 404 "Not Found"
      "no such section" (by decide)).1
     { operation := SectionOp.get_section, section_id := some 5 }⟩

/-- C10: in the combined-variant tools, every `delete_section`,
`delete_case` and `delete_cases` request body carries the key `soft`:
`1` exactly when the flag was passed as `true`, and an explicit `0` when
it was `false` or unset. -/
theorem delete_bodies_always_carry_soft (base : String) :
    (∀ a : SectionOperations, a.operation = SectionOp.delete_section →
      ∃ fields, (buildSectionRequest base a).body = some fields ∧
        (a.soft = some true → jlookup fields "soft" = some (JValue.jNum 1)) ∧
        (a.soft ≠ some true → jlookup fields "soft" = some (JValue.jNum 0))) ∧
    (∀ a : CaseOperations, a.operation = CaseOp.delete_case →
      ∃ fields, (buildCaseRequest base a).body = some fields ∧
        (a.soft = some true → jlookup fields "soft" = some (JValue.jNum 1)) ∧
        (a.soft ≠ some true → jlookup fields "soft" = some (JValue.jNum 0))) ∧
    (∀ a : CaseOperations, a.operation = CaseOp.delete_cases →
      ∃ fields, (buildCaseRequest base a).body = some fields ∧
        (a.soft = some true → jlookup fields "soft" = some (JValue.jNum 1)) ∧
        (a.soft ≠ some true → jlookup fields "soft" = some (JValue.jNum 0))) := by
  refine ⟨fun a hop => ?_, fun a hop => ?_, fun a hop => ?_⟩
  · refine ⟨[("soft", JValue.jNum (if truthyBool a.soft then 1 else 0))],
      by simp [buildSectionRequest, hop], ?_, ?_⟩
    · intro hs
      simp [jlookup, truthyBool, hs]
    · intro hs
      rcases h : a.soft with _ | b
      · simp [jlookup, truthyBool, h]
      · cases b
        · simp [jlookup, truthyBool, h]
        · exact absurd h hs
  · refine ⟨[("soft", JValue.jNum (if truthyBool a.soft then 1 else 0))],
      by simp [buildCaseRequest, hop], ?_, ?_⟩
    · intro hs
      simp [jlookup, truthyBool, hs]
    · intro hs
      rcases h : a.soft with _ | b
      · simp [jlookup, truthyBool, h]
      · cases b
        · simp [jlookup, truthyBool, h]
        · exact absurd h hs
  · refine ⟨buildObj [("case_ids", a.case_ids.map natListJ),
        ("soft", some (JValue.jNum (if truthyBool a.soft then 1 else 0)))],
      by simp [buildCaseRequest, hop], ?_, ?_⟩
    · intro hs
      rcases hc : a.case_ids with _ | ids <;>
        simp [jlookup, buildObj, truthyBool, hs, hc]
    · intro hs
      rcases h : a.soft with _ | b
      · rcases hc : a.case_ids with _ | ids <;>
          simp [jlookup, buildObj, truthyBool, h, hc]
      · cases b
        · rcases hc : a.case_ids with _ | ids <;>
            simp [jlookup, buildObj, truthyBool, h, hc]
        · exact absurd h hs

/-- Witness for C10: a hard `delete_case` (soft unset) sends `soft: 0`. -/
theorem delete_bodies_always_carry_soft_witness :
    ({ operation := CaseOp.delete_case, case_id := some 3 } :
        CaseOperations).operation = CaseOp.delete_case ∧
    ∃ fields,
      (buildCaseRequest "B"
        ({ operation := CaseOp.delete_case, case_id := some 3 } :
          CaseOperations)).body = some fields ∧
      jlookup fields "soft" = some (JValue.jNum 0) := by
  refine ⟨rfl, ?_⟩
  obtain ⟨fields, hbody, _, h0⟩ :=
    (delete_bodies_always_carry_soft "B").2.1
      { operation := CaseOp.delete_case, case_id := some 3 } rfl
  exact ⟨fields, hbody, h0 (by simp)⟩

/-- C9: in the combined-variant tools, every list-operation URL is the
path segment followed immediately by `&` and then the (possibly empty)
query string; with no optional parameters supplied the URL ends with a
trailing `&`. -/
theorem combined_list_urls_end_with_ampersand (base : String) :
    (∀ a : SectionOperations, a.operation = SectionOp.get_sections →
      (∃ q, (buildSectionRequest base a).url =
        base ++ "/get_sections/" ++ jsNum a.project_id ++ "&" ++ q) ∧
      (a.suite_id = none →
        (buildSectionRequest base a).url =
          base ++ "/get_sections/" ++ jsNum a.project_id ++ "&")) ∧
    (∀ a : CaseOperations, a.operation = CaseOp.get_cases →
      (∃ q, (buildCaseRequest base a).url =
        base ++ "/get_cases/" ++ jsNum a.project_id ++ "&" ++ q) ∧
      (a.suite_id = none → a.priority_id = none → a.limit = none →
        a.offset = none → a.filter = none →
        (buildCaseRequest base a).url =
          base ++ "/get_cases/" ++ jsNum a.project_id ++ "&")) ∧
    (∀ a : ProjectOperations, a.operation = ProjectOp.get_projects →
      (∃ q, (buildProjectRequest base a).url =
        base ++ "/get_projects" ++ "&" ++ q) ∧
      (a.is_completed = none → a.limit = none → a.offset = none →
        (buildProjectRequest base a).url = base ++ "/get_projects" ++ "&")) := by
  refine ⟨fun a hop => ⟨⟨renderQuery (if truthyNat a.suite_id then
      [("suite_id", jsNum a.suite_id)] else []), ?_⟩, fun h1 => ?_⟩,
    fun a hop => ⟨⟨renderQuery (caseQueryParams a), ?_⟩,
      fun h1 h2 h3 h4 h5 => ?_⟩,
    fun a hop => ⟨⟨renderQuery (projectQueryParams a), ?_⟩,
      fun h1 h2 h3 => ?_⟩⟩
  · simp [buildSectionRequest, hop, String.append_assoc]
  · simp [buildSectionRequest, hop, h1, truthyNat, renderQuery,
      String.intercalate]
  · simp [buildCaseRequest, hop, String.append_assoc]
  · simp [buildCaseRequest, hop, h1, h2, h3, h4, h5, caseQueryParams,
      renderQuery, String.intercalate]
  · simp [buildProjectRequest, hop, String.append_assoc]
  · simp [buildProjectRequest, hop, h1, h2, h3, projectQueryParams,
      renderQuery, String.intercalate]

/-- Witness for C9: `get_sections` with no `suite_id` ends in `&`. -/
theorem combined_list_urls_end_with_ampersand_witness :
    ({ operation := SectionOp.get_sections, project_id := some 7 } :
        SectionOperations).operation = SectionOp.get_sections ∧
    (buildSectionRequest "B"
      ({ operation := SectionOp.get_sections, project_id := some 7 } :
        SectionOperations)).url =
      "B" ++ "/get_sections/" ++ jsNum (some 7) ++ "&" :=
  ⟨rfl,
   ((combined_list_urls_end_with_ampersand "B").1
      { operation := SectionOp.get_sections, project_id := some 7 } rfl).2 rfl⟩

/-- C7: an `add_case` input with `section_id = 12` builds a POST to
`{base}/add_case/12` whose body is exactly the serialized validated
input minus the `operation` and `section_id` fields. -/
theorem add_case_request_roundtrip (base : String) (a : CaseOperations)
    (hop : a.operation = CaseOp.add_case) (hsec : a.section_id = some 12)
    (htitle : a.title = some "T") :
    (buildCaseRequest base a).method = "POST" ∧
    (buildCaseRequest base a).url = base ++ "/add_case/12" ∧
    (buildCaseRequest base a).body =
      some ((caseFields a).filter
        (fun kv => kv.1 != "operation" && kv.1 != "section_id")) := by
  refine ⟨?_, ?_, ?_⟩
  · simp [buildCaseRequest, hop]
  · have h12 : (toString (12 : Nat)) = "12" := rfl
    simp [buildCaseRequest, hop, hsec, jsNum, h12, String.append_assoc]
  · simp [buildCaseRequest, hop, eraseKey_eraseKey_eq_filter]

/-- Witness for C7 at a concrete minimal `add_case` input. -/
theorem add_case_request_roundtrip_witness :
    (buildCaseRequest "B"
      ({ operation := CaseOp.add_case, section_id := some 12,
         title := some "T" } : CaseOperations)).method = "POST" ∧
    (buildCaseRequest "B"
      ({ operation := CaseOp.add_case, section_id := some 12,
         title := some "T" } : CaseOperations)).url = "B" ++ "/add_case/12" ∧
    (buildCaseRequest "B"
      ({ operation := CaseOp.add_case, section_id := some 12,
         title := some "T" } : CaseOperations)).body =
      some ((caseFields ({ operation := CaseOp.add_case,
                           section_id := some 12,
                           title := some "T" } : CaseOperations)).filter
        (fun kv => kv.1 != "operation" && kv.1 != "section_id")) :=
  add_case_request_roundtrip "B"
    { operation := CaseOp.add_case, section_id := some 12, title := some "T" }
    rfl rfl rfl

/-- C8: for the list operations, an omitted optional filter never
appears in the query parameter list, and a supplied one appears under
its declared key with its stringified value (each pair is then
percent-encoded by `renderQuery`/`qFrag`). Covers the combined
`get_cases` and `get_projects` query builders, the combined
`get_sections` URL, and the split-form `get_projects` fragments. -/
theorem list_query_params_reflect_supplied_filters :
    (∀ a : CaseOperations,
      (a.suite_id = none → ∀ v, ("suite_id", v) ∉ caseQueryParams a) ∧
      (∀ n, a.suite_id = some n → ("suite_id", toString n) ∈ caseQueryParams a) ∧
      (a.priority_id = none → ∀ v, ("priority_id", v) ∉ caseQueryParams a) ∧
      (∀ n, a.priority_id = some n →
        ("priority_id", toString n) ∈ caseQueryParams a) ∧
      (a.limit = none → ∀ v, ("limit", v) ∉ caseQueryParams a) ∧
      (∀ n, a.limit = some n → ("limit", toString n) ∈ caseQueryParams a) ∧
      (a.offset = none → ∀ v, ("offset", v) ∉ caseQueryParams a) ∧
      (∀ n, a.offset = some n → ("offset", toString n) ∈ caseQueryParams a) ∧
      (a.filter = none → ∀ v, ("filter", v) ∉ caseQueryParams a) ∧
      (∀ s, a.filter = some s → ("filter", s) ∈ caseQueryParams a)) ∧
    (∀ a : ProjectOperations,
      (a.is_completed = none →
        ∀ v, ("is_completed", v) ∉ projectQueryParams a) ∧
      (∀ i, a.is_completed = some i →
        ("is_completed", if i then "1" else "0") ∈ projectQueryParams a) ∧
      (a.limit = none → ∀ v, ("limit", v) ∉ projectQueryParams a) ∧
      (∀ n, a.limit = some n → ("limit", toString n) ∈ projectQueryParams a) ∧
      (a.offset = none → ∀ v, ("offset", v) ∉ projectQueryParams a) ∧
      (∀ n, a.offset = some n → ("offset", toString n) ∈ projectQueryParams a)) ∧
    (∀ (base : String) (a : SectionOperations) n,
      a.operation = SectionOp.get_sections → a.suite_id = some n → 0 < n →
      (buildSectionRequest base a).url =
        base ++ "/get_sections/" ++ jsNum a.project_id ++ "&" ++
          renderQuery [("suite_id", toString n)]) ∧
    (∀ g : GetProjectsParams,
      (g.is_completed = none →
        ∀ v, ("is_completed", v) ∉ getProjectsQueryPairs g) ∧
      (∀ i, g.is_completed = some i →
        qFrag "is_completed" (toString i) ∈ getProjectsQueryParams g) ∧
      (g.limit = none → ∀ v, ("limit", v) ∉ getProjectsQueryPairs g) ∧
      (∀ n, g.limit = some n →
        qFrag "limit" (toString n) ∈ getProjectsQueryParams g) ∧
      (g.offset = none → ∀ v, ("offset", v) ∉ getProjectsQueryPairs g) ∧
      (∀ n, g.offset = some n →
        qFrag "offset" (toString n) ∈ getProjectsQueryParams g)) := by
  refine ⟨fun a => ⟨?_, ?_, ?_, ?_, ?_, ?_, ?_, ?_, ?_, ?_⟩,
    fun a => ⟨?_, ?_, ?_, ?_, ?_, ?_⟩,
    fun base a n hop hs hn => ?_,
    fun g => ⟨?_, ?_, ?_, ?_, ?_, ?_⟩⟩
  · intro h v hv
    rcases hp : a.priority_id with _ | p <;> rcases hl : a.limit with _ | l <;>
      rcases ho : a.offset with _ | o2 <;> rcases hf : a.filter with _ | f <;>
      simp [caseQueryParams, h, hp, hl, ho, hf] at hv
  · intro n h
    simp [caseQueryParams, h]
  · intro h v hv
    rcases hs : a.suite_id with _ | s2 <;> rcases hl : a.limit with _ | l <;>
      rcases ho : a.offset with _ | o2 <;> rcases hf : a.filter with _ | f <;>
      simp [caseQueryParams, h, hs, hl, ho, hf] at hv
  · intro n h
    rcases hs : a.suite_id with _ | s2 <;> simp [caseQueryParams, h, hs]
  · intro h v hv
    rcases hs : a.suite_id with _ | s2 <;>
      rcases hp : a.priority_id with _ | p <;>
      rcases ho : a.offset with _ | o2 <;> rcases hf : a.filter with _ | f <;>
      simp [caseQueryParams, h, hs, hp, ho, hf] at hv
  · intro n h
    rcases hs : a.suite_id with _ | s2 <;>
      rcases hp : a.priority_id with _ | p <;> simp [caseQueryParams, h, hs, hp]
  · intro h v hv
    rcases hs : a.suite_id with _ | s2 <;>
      rcases hp : a.priority_id with _ | p <;> rcases hl : a.limit with _ | l <;>
      rcases hf : a.filter with _ | f <;>
      simp [caseQueryParams, h, hs, hp, hl, hf] at hv
  · intro n h
    rcases hs : a.suite_id with _ | s2 <;>
      rcases hp : a.priority_id with _ | p <;> rcases hl : a.limit with _ | l <;>
      simp [caseQueryParams, h, hs, hp, hl]
  · intro h v hv
    rcases hs : a.suite_id with _ | s2 <;>
      rcases hp : a.priority_id with _ | p <;> rcases hl : a.limit with _ | l <;>
      rcases ho : a.offset with _ | o2 <;>
      simp [caseQueryParams, h, hs, hp, hl, ho] at hv
  · intro s h
    rcases hs : a.suite_id with _ | s2 <;>
      rcases hp : a.priority_id with _ | p <;> rcases hl : a.limit with _ | l <;>
      rcases ho : a.offset with _ | o2 <;>
      simp [caseQueryParams, h, hs, hp, hl, ho]
  · intro h v hv
    rcases hl : a.limit with _ | l <;> rcases ho : a.offset with _ | o2 <;>
      simp [projectQueryParams, h, hl, ho] at hv
  · intro i h
    simp [projectQueryParams, h]
  · intro h v hv
    rcases hi : a.is_completed with _ | i <;> rcases ho : a.offset with _ | o2 <;>
      simp [projectQueryParams, h, hi, ho] at hv
  · intro n h
    rcases hi : a.is_completed with _ | i <;> simp [projectQueryParams, h, hi]
  · intro h v hv
    rcases hi : a.is_completed with _ | i <;> rcases hl : a.limit with _ | l <;>
      simp [projectQueryParams, h, hi, hl] at hv
  · intro n h
    rcases hi : a.is_completed with _ | i <;> rcases hl : a.limit with _ | l <;>
      simp [projectQueryParams, h, hi, hl]
  · have hnz : (n != 0) = true := by
      simpa using Nat.pos_iff_ne_zero.mp hn
    simp [buildSectionRequest, hop, hs, truthyNat, hnz, jsNum]
  · intro h v hv
    rcases hl : g.limit with _ | l <;> rcases ho : g.offset with _ | o2 <;>
      simp [getProjectsQueryPairs, h, hl, ho] at hv
  · intro i h
    simp [getProjectsQueryParams, getProjectsQueryPairs, h]
  · intro h v hv
    rcases hi : g.is_completed with _ | i <;> rcases ho : g.offset with _ | o2 <;>
      simp [getProjectsQueryPairs, h, hi, ho] at hv
  · intro n h
    rcases hi : g.is_completed with _ | i <;>
      simp [getProjectsQueryParams, getProjectsQueryPairs, h, hi]
  · intro h v hv
    rcases hi : g.is_completed with _ | i <;> rcases hl : g.limit with _ | l <;>
      simp [getProjectsQueryPairs, h, hi, hl] at hv
  · intro n h
    rcases hi : g.is_completed with _ | i <;> rcases hl : g.limit with _ | l <;>
      simp [getProjectsQueryParams, getProjectsQueryPairs, h, hi, hl]

/-- Witness for C8: a `get_cases` call with only `suite_id = 5` has
`suite_id` in and `filter` out of its query parameters. -/
theorem list_query_params_reflect_supplied_filters_witness :
    ("suite_id", toString (5 : Nat)) ∈ caseQueryParams
      ({ operation := CaseOp.get_cases, project_id := some 1,
         suite_id := some 5 } : CaseOperations) ∧
    ("filter", "x") ∉ caseQueryParams
      ({ operation := CaseOp.get_cases, project_id := some 1,
         suite_id := some 5 } : CaseOperations) :=
  ⟨(list_query_params_reflect_supplied_filters.1
      { operation := CaseOp.get_cases, project_id := some 1,
        suite_id := some 5 }).2.1 5 rfl,
   ((list_query_params_reflect_supplied_filters.1
      { operation := CaseOp.get_cases, project_id := some 1,
        suite_id := some 5 }).2.2.2.2.2.2.2.2.1 rfl) "x"⟩

/-- C4: in every resource family, an input carrying exactly the
required fields of an operation passes the conditional validation with no
issues; removing any single required field produces exactly one issue
whose path names exactly that field; and several simultaneously missing
fields each produce their own issue (shown for `move_cases` with all
three required fields absent). -/
theorem conditional_validation_per_operation :
    (∀ op : CaseOp, caseIssues (minimalCaseInput op) = [] ∧
      ∀ f ∈ caseRequiredFields op,
        caseIssues (clearCaseField (minimalCaseInput op) f) =
          [requiredIssue f]) ∧
    (∀ op : SectionOp, sectionIssues (minimalSectionInput op) = [] ∧
      ∀ f ∈ sectionRequiredFields op,
        sectionIssues (clearSectionField (minimalSectionInput op) f) =
          [requiredIssue f]) ∧
    (∀ op : ProjectOp, projectIssues (minimalProjectInput op) = [] ∧
      ∀ f ∈ projectRequiredFields op,
        projectIssues (clearProjectField (minimalProjectInput op) f) =
          [requiredIssue f]) ∧
    (∀ op : SuiteOp, suiteIssues (minimalSuiteInput op) = [] ∧
      ∀ f ∈ suiteRequiredFields op,
        suiteIssues (clearSuiteField (minimalSuiteInput op) f) =
          [suiteRequiredIssue op.str f]) ∧
    caseIssues { operation := CaseOp.move_cases } =
      [requiredIssue "section_id", requiredIssue "suite_id",
       requiredIssue "case_ids"] := by
  refine ⟨fun op => ?_, fun op => ?_, fun op => ?_, fun op => ?_, ?_⟩
  · cases op <;> exact ⟨by decide, by decide⟩
  · cases op <;> exact ⟨by decide, by decide⟩
  · cases op <;> exact ⟨by decide, by decide⟩
  · cases op <;> exact ⟨by decide, by decide⟩
  · decide

/-- Witness for C4: omitting only `title` from a minimal `add_case`
input yields exactly the `title` issue. -/
theorem conditional_validation_per_operation_witness :
    "title" ∈ caseRequiredFields CaseOp.add_case ∧
    caseIssues (clearCaseField (minimalCaseInput CaseOp.add_case) "title") =
      [requiredIssue "title"] :=
  ⟨by decide,
   (conditional_validation_per_operation.1 CaseOp.add_case).2 "title"
     (by decide)⟩

/-- C1: the combined-variant tool handlers are total string-valued
functions of the validated input and the HTTP outcome (the embedding
makes "never throws past the boundary" structural), and on every
failure outcome - network rejection, non-2xx response, or (where the
family treats it as a failure) a malformed response body - the result
is the boundary string naming the attempted operation and carrying the
underlying error message. In the cases family a malformed body on a
2xx non-delete response is not a failure: the raw text is returned. -/
theorem tool_boundary_failure_reporting :
    (∀ (a : SectionOperations) (m : String),
      manage_testrail_sections a (HttpOutcome.networkError m) =
        "Failed to perform operation " ++ a.operation.str ++ ". Error: " ++ m) ∧
    (∀ (a : SectionOperations) s st b, statusOk s = false →
      manage_testrail_sections a (HttpOutcome.response s st b) =
        "Failed to perform operation " ++ a.operation.str ++ ". Error: " ++
          apiErrorMessage s st b) ∧
    (∀ (a : SectionOperations) s st b, statusOk s = true → s ≠ 204 →
      jsStartsWith a.operation.str "delete" = false → jsonParse b = none →
      manage_testrail_sections a (HttpOutcome.response s st b) =
        "Failed to perform operation " ++ a.operation.str ++ ". Error: " ++
          jsonSyntaxErrorMessage b) ∧
    (∀ (a : CaseOperations) (m : String),
      manage_testrail_cases a (HttpOutcome.networkError m) =
        "Failed to perform operation " ++ a.operation.str ++ ". Error: " ++ m) ∧
    (∀ (a : CaseOperations) s st b, statusOk s = false →
      manage_testrail_cases a (HttpOutcome.response s st b) =
        "Failed to perform operation " ++ a.operation.str ++ ". Error: " ++
          apiErrorMessage s st b) ∧
    (∀ (a : CaseOperations) s st b, statusOk s = true → s ≠ 204 →
      jsStartsWith a.operation.str "delete" = false → jsonParse b = none →
      manage_testrail_cases a (HttpOutcome.response s st b) = b) ∧
    (∀ (a : ProjectOperations) (m : String),
      manage_testrail_projects a (HttpOutcome.networkError m) =
        "Failed to perform operation " ++ a.operation.str ++ ". Error: " ++ m) ∧
    (∀ (a : ProjectOperations) s st b, statusOk s = false →
      manage_testrail_projects a (HttpOutcome.response s st b) =
        "Failed to perform operation " ++ a.operation.str ++ ". Error: " ++
          apiErrorMessage s st b) ∧
    (∀ (a : ProjectOperations) s st b, statusOk s = true → s ≠ 204 →
      jsStartsWith a.operation.str "delete" = false → jsonParse b = none →
      manage_testrail_projects a (HttpOutcome.response s st b) =
        "Failed to perform operation " ++ a.operation.str ++ ". Error: " ++
          jsonSyntaxErrorMessage b) ∧
    (∀ (a : SuiteOperations) (m : String),
      manage_testrail_suites a (HttpOutcome.networkError m) =
        "Failed to perform operation " ++ a.operation.str ++ ". Error: " ++ m) ∧
    (∀ (a : SuiteOperations) s st b, statusOk s = false →
      manage_testrail_suites a (HttpOutcome.response s st b) =
        "Failed to perform operation " ++ a.operation.str ++ ". Error: " ++
          apiErrorMessage s st b) ∧
    (∀ (a : SuiteOperations) s st b, statusOk s = true →
      a.operation ≠ SuiteOp.delete → jsonParse b = none →
      manage_testrail_suites a (HttpOutcome.response s st b) =
        "Failed to perform operation " ++ a.operation.str ++ ". Error: " ++
          jsonSyntaxErrorMessage b) := by
  have h204 : ∀ s : Nat, s ≠ 204 → (s == 204) = false := fun s hs =>
    beq_eq_false_iff_ne.mpr hs
  refine ⟨fun a m => ?_, fun a s st b h => ?_,
    fun a s st b h hne hdel hj => ?_,
    fun a m => ?_, fun a s st b h => ?_,
    fun a s st b h hne hdel hj => ?_,
    fun a m => ?_, fun a s st b h => ?_,
    fun a s st b h hne hdel hj => ?_,
    fun a m => ?_, fun a s st b h => ?_,
    fun a s st b h hdel hj => ?_⟩
  · simp [manage_testrail_sections, sectionsTryBlock, JsError.message]
  · simp [manage_testrail_sections, sectionsTryBlock, JsError.message, h]
  · simp [manage_testrail_sections, sectionsTryBlock, JsError.message, h,
      h204 s hne, hdel, hj]
  · simp [manage_testrail_cases, casesTryBlock, JsError.message]
  · simp [manage_testrail_cases, casesTryBlock, JsError.message, h]
  · simp [manage_testrail_cases, casesTryBlock, JsError.message, h,
      h204 s hne, hdel, hj]
  · simp [manage_testrail_projects, projectsTryBlock, JsError.message]
  · simp [manage_testrail_projects, projectsTryBlock, JsError.message, h]
  · simp [manage_testrail_projects, projectsTryBlock, JsError.message, h,
      h204 s hne, hdel, hj]
  · simp [manage_testrail_suites, suitesTryBlock, JsError.message]
  · simp [manage_testrail_suites, suitesTryBlock, JsError.message, h]
  · simp [manage_testrail_suites, suitesTryBlock, JsError.message, h,
      hdel, hj]

/-- Witness for C1: a network failure on a `get_case` call surfaces as
the boundary string naming the operation and the message. -/
theorem tool_boundary_failure_reporting_witness :
    (manage_testrail_cases
        ({ operation := CaseOp.get_case, case_id := some 2 } : CaseOperations)
        (HttpOutcome.networkError "fetch failed") =
      "Failed to perform operation " ++ CaseOp.get_case.str ++ ". Error: " ++
        "fetch failed") ∧
    (statusOk 200 = true ∧ jsonParse "oops" = none ∧
     manage_testrail_sections
        ({ operation := SectionOp.update_section, section_id := some 1 } :
          SectionOperations)
        (HttpOutcome.response 200 "OK" "oops") =
      "Failed to perform operation " ++ SectionOp.update_section.str ++
        ". Error: " ++ jsonSyntaxErrorMessage "oops") :=
  ⟨tool_boundary_failure_reporting.2.2.2.1
      { operation := CaseOp.get_case, case_id := some 2 } "fetch failed",
   by decide, rfl,
   tool_boundary_failure_reporting.2.2.1
      { operation := SectionOp.update_section, section_id := some 1 }
      200 "OK" "oops" (by decide) (by decide) (by decide) rfl⟩

/-- C2 counterexample: a soft `delete_section` in the combined tool, on
a 200 response whose body is a JSON preview, returns the fixed success
string rather than the pretty-printed preview payload, so the claim
that every soft delete returns the remote preview is false on this
input. -/
theorem soft_delete_preview_counterexample :
    manage_testrail_sections
        ({ operation := SectionOp.delete_section, section_id := some 1,
           soft := some true } : SectionOperations)
        (HttpOutcome.response 200 "OK" "\x7b\"sections\": 1\x7d") =
      "Operation delete_section successful." ∧
    jsonParse "\x7b\"sections\": 1\x7d" =
      some (JValue.jObj [("sections", JValue.jNum 1)]) ∧
    "Operation delete_section successful." ≠
      jsonStringifyPretty (JValue.jObj [("sections", JValue.jNum 1)]) := by
  refine ⟨rfl, rfl, ?_⟩
  decide

/-- C2 amended: the soft/hard distinction in delete responses exists
only in the split-form `delete_cases` tool (soft returns the parsed
preview pretty-printed, hard the fixed string regardless of body). The
combined-variant deletes and the split `delete_section` return their
fixed success string whatever `soft` and the body are, and the split
`delete_case` returns the parsed body whenever it is non-empty,
regardless of `soft`, and its fixed string when it is empty. -/
theorem delete_response_normalization :
    (∀ (a : SectionOperations) s st b, statusOk s = true →
      a.operation = SectionOp.delete_section →
      manage_testrail_sections a (HttpOutcome.response s st b) =
        "Operation delete_section successful.") ∧
    (∀ (a : CaseOperations) s st b, statusOk s = true →
      (a.operation = CaseOp.delete_case ∨ a.operation = CaseOp.delete_cases) →
      manage_testrail_cases a (HttpOutcome.response s st b) =
        "Operation " ++ a.operation.str ++ " successful.") ∧
    (∀ (sid : Nat) (soft : Option Nat) s st b, statusOk s = true →
      delete_section_execute sid soft (HttpOutcome.response s st b) =
        "Successfully deleted section " ++ toString sid ++ ".") ∧
    (∀ (sid : Nat) s st b v, statusOk s = true → b ≠ "" →
      jsonParse b = some v →
      delete_cases_execute sid (some true) (HttpOutcome.response s st b) =
        jsonStringifyPretty v) ∧
    (∀ (sid : Nat) (soft : Option Bool) s st b, statusOk s = true →
      soft ≠ some true →
      delete_cases_execute sid soft (HttpOutcome.response s st b) =
        "Successfully deleted cases from suite " ++ toString sid ++ ".") ∧
    (∀ (cid : Nat) (soft : Option Bool) s st b v, statusOk s = true →
      b ≠ "" → jsonParse b = some v →
      delete_case_execute cid soft (HttpOutcome.response s st b) =
        jsonStringifyPretty v) ∧
    (∀ (cid : Nat) (soft : Option Bool) s st, statusOk s = true →
      delete_case_execute cid soft (HttpOutcome.response s st "") =
        "Successfully deleted case " ++ toString cid ++ ".") := by
  have hdel1 : jsStartsWith "delete_section" "delete" = true := by decide
  have hdel2 : jsStartsWith "delete_case" "delete" = true := by decide
  have hdel3 : jsStartsWith "delete_cases" "delete" = true := by decide
  refine ⟨fun a s st b h hop => ?_, fun a s st b h hop => ?_,
    fun sid soft s st b h => ?_, fun sid s st b v h hb hj => ?_,
    fun sid soft s st b h hsoft => ?_, fun cid soft s st b v h hb hj => ?_,
    fun cid soft s st h => ?_⟩
  · simp [manage_testrail_sections, sectionsTryBlock, h, hop, SectionOp.str,
      hdel1]
  · rcases hop with hop | hop <;>
      simp [manage_testrail_cases, casesTryBlock, h, hop, CaseOp.str,
        hdel2, hdel3]
  · simp [delete_section_execute, h]
  · simp [delete_cases_execute, h, truthyBool, hb, hj]
  · have hs : truthyBool soft = false := by
      rcases soft with _ | b2
      · rfl
      · cases b2
        · rfl
        · exact absurd rfl hsoft
    simp [delete_cases_execute, h, hs]
  · simp [delete_case_execute, h, hb, hj]
  · simp [delete_case_execute, h]

/-- Witness for the amended C2: a split-form soft `delete_cases` on a
JSON preview body returns the pretty-printed preview, and a hard one
the fixed string. -/
theorem delete_response_normalization_witness :
    (statusOk 200 = true ∧
     jsonParse "\x7b\"deleted\": 2\x7d" =
       some (JValue.jObj [("deleted", JValue.jNum 2)]) ∧
     delete_cases_execute 9 (some true)
        (HttpOutcome.response 200 "OK" "\x7b\"deleted\": 2\x7d") =
       jsonStringifyPretty (JValue.jObj [("deleted", JValue.jNum 2)])) ∧
    delete_cases_execute 9 none
        (HttpOutcome.response 200 "OK" "\x7b\"deleted\": 2\x7d") =
      "Successfully deleted cases from suite " ++ toString (9 : Nat) ++ "." :=
  ⟨⟨by decide, rfl,
    delete_response_normalization.2.2.2.1 9 200 "OK" "\x7b\"deleted\": 2\x7d"
      (JValue.jObj [("deleted", JValue.jNum 2)]) (by decide) (by decide) rfl⟩,
   delete_response_normalization.2.2.2.2.1 9 none 200 "OK"
      "\x7b\"deleted\": 2\x7d" (by decide) (by simp)⟩

/-- C3 counterexample: the combined-variant `SectionOperations` schema
declares `parent_id` as a plain optional positive integer (not
nullable), so a `move_section` input with `parent_id` explicitly `null`
is rejected at validation and no request body containing
`parent_id: null` is ever built by that tool - the claim, quantified
over every `move_section` call, fails there. -/
theorem move_section_null_parent_rejected_counterexample :
    parseSectionOperations
        [("operation", JValue.jStr "move_section"),
         ("section_id", JValue.jNum 1), ("parent_id", JValue.jNull)] =
      Except.error "parent_id: Expected number, received null" := rfl

/-- C3 amended: the split-form `move_section` tool preserves the
explicit-null/unset distinction through validation and serialization
(`null` parses to an explicit-null value and serializes to
`parent_id: null`; unset stays absent and the key is omitted); the
schema of the combined variant accepts only positive integers or absence
for `parent_id`. -/
theorem move_section_null_parent_distinction :
    (parseMoveSectionParams
        [("section_id", JValue.jNum 1), ("parent_id", JValue.jNull)] =
      Except.ok { section_id := 1, parent_id := some none }) ∧
    (parseMoveSectionParams [("section_id", JValue.jNum 1)] =
      Except.ok { section_id := 1 }) ∧
    (∀ a : MoveSectionParams, a.parent_id = some none →
      jlookup (moveSectionBody a) "parent_id" = some JValue.jNull) ∧
    (∀ a : MoveSectionParams, a.parent_id = none →
      jlookup (moveSectionBody a) "parent_id" = none) ∧
    (∀ (a : MoveSectionParams) n, a.parent_id = some (some n) →
      jlookup (moveSectionBody a) "parent_id" = some (JValue.jNum n)) := by
  refine ⟨rfl, rfl, fun a h => ?_, fun a h => ?_, fun a n h => ?_⟩
  · simp [moveSectionBody, buildObj, jlookup, h, nullableNatJ]
  · rcases ha : a.after_id with _ | x <;>
      simp [moveSectionBody, buildObj, jlookup, h, ha]
  · simp [moveSectionBody, buildObj, jlookup, h, nullableNatJ]

/-- Witness for the amended C3 at concrete inputs: explicit null is
kept, unset is omitted. -/
theorem move_section_null_parent_distinction_witness :
    jlookup (moveSectionBody
        ({ section_id := 1, parent_id := some none } : MoveSectionParams))
      "parent_id" = some JValue.jNull ∧
    jlookup (moveSectionBody ({ section_id := 1 } : MoveSectionParams))
      "parent_id" = none :=
  ⟨move_section_null_parent_distinction.2.2.1
      { section_id := 1, parent_id := some none } rfl,
   move_section_null_parent_distinction.2.2.2.1 { section_id := 1 } rfl⟩

/-- C5 counterexample: a 200 `update_section` response with a
zero-length body does not yield a fixed success message - both variants
hit the `response.json()` parse failure and return the boundary error
string. -/
theorem update_section_empty_body_counterexample :
    manage_testrail_sections
        ({ operation := SectionOp.update_section, section_id := some 1,
           name := some "N" } : SectionOperations)
        (HttpOutcome.response 200 "OK" "") =
      "Failed to perform operation update_section. Error: " ++
        jsonSyntaxErrorMessage "" ∧
    manage_testrail_sections
        ({ operation := SectionOp.update_section, section_id := some 1,
           name := some "N" } : SectionOperations)
        (HttpOutcome.response 200 "OK" "") ≠
      "Operation update_section successful." ∧
    update_section_execute 1 (HttpOutcome.response 200 "OK" "") =
      "Failed to update section " ++ toString (1 : Nat) ++ ". Error: " ++
        jsonSyntaxErrorMessage "" := by
  refine ⟨rfl, ?_, rfl⟩
  decide

/-- C5 amended: for `update_section`, an actual HTTP 204 yields the
fixed success message in the combined variant; a 200 with a non-empty
JSON body yields that JSON pretty-printed in both variants; but a 200
whose body is zero-length (or otherwise unparseable) is a JSON-parse
failure and yields the boundary error string in both variants. -/
theorem update_section_response_normalization :
    (∀ (a : SectionOperations) st b, a.operation = SectionOp.update_section →
      manage_testrail_sections a (HttpOutcome.response 204 st b) =
        "Operation update_section successful.") ∧
    (∀ (a : SectionOperations) st b v, a.operation = SectionOp.update_section →
      jsonParse b = some v →
      manage_testrail_sections a (HttpOutcome.response 200 st b) =
        jsonStringifyPretty v) ∧
    (∀ (a : SectionOperations) st b, a.operation = SectionOp.update_section →
      jsonParse b = none →
      manage_testrail_sections a (HttpOutcome.response 200 st b) =
        "Failed to perform operation update_section. Error: " ++
          jsonSyntaxErrorMessage b) ∧
    (∀ (sid : Nat) st b v, jsonParse b = some v →
      update_section_execute sid (HttpOutcome.response 200 st b) =
        jsonStringifyPretty v) ∧
    (∀ (sid : Nat) st b, jsonParse b = none →
      update_section_execute sid (HttpOutcome.response 200 st b) =
        "Failed to update section " ++ toString sid ++ ". Error: " ++
          jsonSyntaxErrorMessage b) := by
  refine ⟨fun a st b hop => ?_, fun a st b v hop hj => ?_,
    fun a st b hop hj => ?_, fun sid st b v hj => ?_, fun sid st b hj => ?_⟩
  · simp [manage_testrail_sections, sectionsTryBlock, hop, statusOk,
      SectionOp.str]
  · simp [manage_testrail_sections, sectionsTryBlock, hop, hj, statusOk,
      SectionOp.str, jsStartsWith, listStartsWith]
  · simp [manage_testrail_sections, sectionsTryBlock, hop, hj, statusOk,
      SectionOp.str, jsStartsWith, listStartsWith, JsError.message]
  · simp [update_section_execute, hj, statusOk]
  · simp [update_section_execute, hj, statusOk, JsError.message]

/-- Witness for the amended C5: 204 gives the fixed message, a JSON
body is pretty-printed. -/
theorem update_section_response_normalization_witness :
    manage_testrail_sections
        ({ operation := SectionOp.update_section, section_id := some 1 } :
          SectionOperations)
        (HttpOutcome.response 204 "No Content" "") =
      "Operation update_section successful." ∧
    (jsonParse "\x7b\"id\": 1\x7d" =
       some (JValue.jObj [("id", JValue.jNum 1)]) ∧
     manage_testrail_sections
        ({ operation := SectionOp.update_section, section_id := some 1 } :
          SectionOperations)
        (HttpOutcome.response 200 "OK" "\x7b\"id\": 1\x7d") =
       jsonStringifyPretty (JValue.jObj [("id", JValue.jNum 1)])) :=
  ⟨update_section_response_normalization.1
      { operation := SectionOp.update_section, section_id := some 1 }
      "No Content" "" rfl,
   rfl,
   update_section_response_normalization.2.1
      { operation := SectionOp.update_section, section_id := some 1 }
      "OK" "\x7b\"id\": 1\x7d" (JValue.jObj [("id", JValue.jNum 1)]) rfl rfl⟩
